import Mathlib

/-!
Verification of the routing / orchestration layer of the EC2-to-ECS migration
sample repository.  The definitions below are shallow embeddings of the Python
source (src/web-ui/app.py, src/agentcore-agent-runtime/agent.py,
src/agentcore-eks-runtime/agent.py,
src/infrastructure/rest-api-server/container-migration/lambda_function.py).
External collaborators (the Bedrock oracle, boto3 clients, the Kubernetes API,
The json library of Python) are modelled as explicit parameters or small state
machines; the control flow of the functions belonging to the repository is translated
faithfully.
-/

set_option linter.unusedVariables false

namespace Ec2Migration

/-! ## Python string helpers

Structural (fuel-free where possible) reimplementations of the Python string
operations the source uses, so that concrete instances reduce in the kernel. -/

/-- Model of Python list/char prefix test used by substring search. -/
def listIsPref : List Char → List Char → Bool
  | [], _ => true
  | _ :: _, [] => false
  | a :: as, b :: bs => a == b && listIsPref as bs

/-- Model of Python `sub in s` (substring containment) on char lists. -/
def listHasSub (sep : List Char) : List Char → Bool
  | [] => sep.isEmpty
  | c :: rest => listIsPref sep (c :: rest) || listHasSub sep rest

/-- Model of Python `sub in s` on strings. -/
def strHasSub (s sub : String) : Bool :=
  listHasSub sub.data s.data

/-- One step of Python `str.split(sep)` on char lists, with explicit fuel so
that concrete instances reduce in the kernel.  Fuel is always instantiated
with the length of the subject, which suffices for a non-empty separator. -/
def splitOnFuel (sep : List Char) : Nat → List Char → List Char → List (List Char)
  | 0, s, acc => [acc.reverse ++ s]
  | fuel + 1, s, acc =>
    match s with
    | [] => [acc.reverse]
    | c :: rest =>
      if listIsPref sep s then
        acc.reverse :: splitOnFuel sep fuel (s.drop sep.length) []
      else
        splitOnFuel sep fuel rest (c :: acc)

/-- Model of Python `s.split(sep)` for a non-empty separator. -/
def pySplit (s sep : String) : List String :=
  (splitOnFuel sep.data (s.data.length + 1) s.data []).map String.mk

/-- Python whitespace for `str.strip()` (the characters that occur in the
strings of the repository). -/
def isPyWs (c : Char) : Bool :=
  c == ' ' || c == '\n' || c == '\t' || c == '\r'

/-- Model of Python `str.strip()`. -/
def pyStrip (s : String) : String :=
  String.mk (((s.data.dropWhile isPyWs).reverse.dropWhile isPyWs).reverse)

/-- Model of Python `str.lower()` (ASCII, which is all the source uses). -/
def lowerStr (s : String) : String :=
  String.mk (s.data.map Char.toLower)

/-! ## JSON value model

The decisions produced by `json.loads` in the router are modelled by this
inductive; the parser itself (the `json` library of Python, an external
collaborator) is an explicit function parameter of the router. -/

inductive JValue where
  | jnull
  | jbool (b : Bool)
  | jnum (n : Int)
  | jstr (s : String)
  | jarr (xs : List JValue)
  | jobj (kvs : List (String × JValue))
deriving Repr

/-- First-match association lookup, the observable behaviour of a Python dict
whose keys are unique (as they are for every object the source builds). -/
def lookupStr : List (String × JValue) → String → Option JValue
  | [], _ => none
  | (k, v) :: rest, key => if k = key then some v else lookupStr rest key

/-- Model of Python `d.get(key)` on a parsed JSON value (`none` when the value
is not an object or the key is absent). -/
def jget (j : JValue) (k : String) : Option JValue :=
  match j with
  | .jobj kvs => lookupStr kvs k
  | _ => none

/-- Python truthiness of an optional JSON value (`if not operation:`). -/
def jFalsy : Option JValue → Bool
  | none => true
  | some .jnull => true
  | some (.jbool b) => !b
  | some (.jnum n) => n == 0
  | some (.jstr s) => s.isEmpty
  | some (.jarr xs) => xs.isEmpty
  | some (.jobj kvs) => kvs.isEmpty

/-- Python `value == "lit"` where `value` came out of a parsed JSON object:
only true when the value is exactly that string. -/
def jEqStr : Option JValue → String → Bool
  | some (.jstr s), t => s == t
  | _, _ => false

/-! ## Command Router (src/web-ui/app.py, `llm_route_ecs_command`)

One Bedrock invocation either raises a Python exception (modelled by the
string form of the exception, which is what the source inspects) or yields the
extracted text content of the model response. -/

inductive BedrockOutcome where
  | raise (msg : String)
  | ok (content : String)

/-- Throttling classification from app.py line 335: membership tests of the
three marker substrings in `str(e)`. -/
def isThrottlingError (msg : String) : Bool :=
  strHasSub msg "ServiceUnavailableException" ||
  strHasSub msg "Too many connections" ||
  strHasSub msg "ThrottlingException"

/-- Code-fence stripping from app.py lines 323-327: take the segment after the
first fence marker and before the next plain fence, then strip. -/
def extractJsonContent (content : String) : String :=
  if strHasSub content "```json" then
    pyStrip ((pySplit ((pySplit content "```json").getD 1 "") "```").getD 0 "")
  else if strHasSub content "```" then
    pyStrip ((pySplit ((pySplit content "```").getD 1 "") "```").getD 0 "")
  else content

/-- The error decision dict built at app.py lines 346-350 and 353-357. -/
def errorDecisionEcs (reasoning : String) : JValue :=
  .jobj [("operation", .jstr "error"), ("arguments", .jobj []),
         ("reasoning", .jstr reasoning)]

/-- One loop iteration up to `json.loads(content)`: an exception anywhere in
the `try` block surfaces as `Except.error` with the string form of the exception.
`loads` models the `json.loads` of Python on the routing text and `decodeErr`
models the message of the `JSONDecodeError` it raises on unparseable text. -/
def bedrockAttempt (loads : String → Option JValue) (decodeErr : String → String)
    (outcome : BedrockOutcome) : Except String JValue :=
  match outcome with
  | .raise msg => .error msg
  | .ok content =>
    match loads (extractJsonContent content) with
    | some j => .ok j
    | none => .error (decodeErr (extractJsonContent content))

/-- Line 302 of app.py: `max_retries = 5`. -/
def maxRetries : Nat := 5

/-- Line 303 of app.py: `base_delay = 3`. -/
def baseDelay : Nat := 3

/-- Result of one router invocation: the returned decision, how many Bedrock
calls were made, and the sequence of `time.sleep` delays (seconds). -/
structure RouterRun where
  decision : JValue
  calls : Nat
  sleeps : List Nat
deriving Repr

/-- The `for attempt in range(max_retries)` loop of `llm_route_ecs_command`
(app.py lines 305-357).  `fuel` counts the remaining loop iterations, so the
fuel-exhausted case is the unreachable post-loop return of lines 353-357. -/
def routeLoop (loads : String → Option JValue) (decodeErr : String → String)
    (oracle : Nat → BedrockOutcome) : Nat → Nat → RouterRun
  | 0, _ =>
    ⟨errorDecisionEcs "Failed to route command: Bedrock service unavailable after retries",
     0, []⟩
  | fuel + 1, attempt =>
    match bedrockAttempt loads decodeErr (oracle attempt) with
    | .ok j => ⟨j, 1, []⟩
    | .error msg =>
      if isThrottlingError msg && decide (attempt < maxRetries - 1) then
        let rest := routeLoop loads decodeErr oracle fuel (attempt + 1)
        ⟨rest.decision, rest.calls + 1, baseDelay * 2 ^ attempt :: rest.sleeps⟩
      else
        ⟨errorDecisionEcs ("Failed to route command after 5 attempts: " ++ msg), 1, []⟩

/-- Function `llm_route_ecs_command` (app.py lines 216-357), parameterised by the json
library and by the per-attempt behaviour of the oracle. -/
def llm_route_ecs_command (loads : String → Option JValue) (decodeErr : String → String)
    (oracle : Nat → BedrockOutcome) : RouterRun :=
  routeLoop loads decodeErr oracle maxRetries 0

/-! ## ECS chat dispatcher (src/web-ui/app.py, `ecs_chat`, lines 965-1199)

`ecs_chat_operation` classifies which operation branch a routing decision
reaches.  A non-object decision makes `routing.get` raise, which the
catch-all handler of line 1197 turns into an error response; a falsy or
unrecognized operation value is turned into an error response by lines
984-988 and 1190-1195. -/

def ecs_chat_operation (routing : JValue) : String :=
  match routing with
  | .jobj _ =>
    let op := jget routing "operation"
    if jFalsy op then "error"
    else if jEqStr op "deploy" then "deploy"
    else if jEqStr op "list" then "list"
    else if jEqStr op "delete" then "delete"
    else if jEqStr op "status" then "status"
    else if jEqStr op "error" then "error"
    else "error"
  | _ => "error"

/-! ## ECS chat deploy pipeline (src/web-ui/app.py, lines 994-1119)

The deploy branch of `ecs_chat`: step 1 creates the ECR repository (already
exists is caught and treated as success; any other exception escapes to the
catch-all handler of line 1197), step 2 builds and pushes the image and
aborts the pipeline on failure, step 3 submits the deployment.  The model
records the report lines appended to `response_text` around the failure
point and whether the pipeline reached the submission step; the post-submit
status-polling tail is summarised by the `submitted` flag. -/

inductive EcrStepOutcome where
  | created
  | alreadyExists
  | raised (msg : String)

/-- Result dict of `build_and_push_docker_image` as consumed by `ecs_chat`. -/
structure BuildResult where
  status : String
  message : String
  image_uri : String
  app_path : String

structure DeployPipelineReport where
  lines : List String
  submitted : Bool
  responseStatus : String

def ecs_chat_deploy_pipeline (app_name : String) (ecrOutcome : EcrStepOutcome)
    (build : BuildResult) : DeployPipelineReport :=
  match ecrOutcome with
  | .raised _ => ⟨[], false, "error"⟩
  | .created =>
    ecs_chat_deploy_after_registry app_name
      ("✅ Created ECR repository: " ++ app_name ++ "\n") build
  | .alreadyExists =>
    ecs_chat_deploy_after_registry app_name
      ("✅ ECR repository already exists: " ++ app_name ++ "\n") build

where
  /-- Lines 1040-1078: step 2 and, when the build succeeded, step 3. -/
  ecs_chat_deploy_after_registry (app_name step1Line : String) (build : BuildResult) :
      DeployPipelineReport :=
    let step1Lines := ["**Step 1: Create ECR Repository**\n", step1Line,
                       "\n**Step 2: Build and Push Docker Image**\n"]
    if build.status ≠ "success" then
      ⟨step1Lines ++ ["❌ Build failed: " ++ build.message ++ "\n"], false, "error"⟩
    else
      ⟨step1Lines ++
        ["🔨 Built from: " ++ build.app_path ++ "\n",
         "✅ Image built and pushed: " ++ build.image_uri ++ "\n",
         "\n**Step 3: Deploy to ECS Express Mode**\n"], true, "success"⟩

/-! ## ECR registry tool (src/agentcore-agent-runtime/agent.py, lines 17-33) -/

/-- The ECR collaborator: the set of existing repository names plus the
provider-chosen URI/ARN for each name. -/
structure EcrState where
  repos : List String
  uriOf : String → String
  arnOf : String → String

structure EcrRepoResult where
  status : String
  repository_uri : String
  repository_arn : Option String

/-- Function `create_ecr_repository`: create, catching `RepositoryAlreadyExistsException`
and answering with the URI of the existing repository in that case. -/
def create_ecr_repository (st : EcrState) (app_name : String) :
    EcrRepoResult × EcrState :=
  if app_name ∈ st.repos then
    (⟨"exists", st.uriOf app_name, none⟩, st)
  else
    (⟨"success", st.uriOf app_name, some (st.arnOf app_name)⟩,
     { st with repos := app_name :: st.repos })

/-! ## ECS service deletion (src/agentcore-agent-runtime/agent.py, lines 206-257) -/

/-- Python truthiness of an optional string argument. -/
def optFalsy : Option String → Bool
  | none => true
  | some s => s.isEmpty

/-- The CloudFormation collaborator: the set of existing stack names. -/
structure CfnState where
  stackNames : List String

structure DeleteEcsResult where
  status : String
  stack_name : Option String
  message : String

/-- Function `delete_ecs_service`: resolve the stack name, probe with
`describe_stacks` (a "does not exist" `ClientError` becomes `not_found`),
and only then call `delete_stack`.  The third component records whether
`delete_stack` was invoked. -/
def delete_ecs_service (st : CfnState) (service_name stack_name : Option String) :
    DeleteEcsResult × CfnState × Bool :=
  let resolved : Option String :=
    if optFalsy stack_name then
      match service_name with
      | some s => if s.isEmpty then stack_name else some ("ecs-express-" ++ s)
      | none => stack_name
    else stack_name
  match resolved with
  | none =>
    (⟨"error", none, "Either service_name or stack_name is required"⟩, st, false)
  | some sn =>
    if sn.isEmpty then
      (⟨"error", none, "Either service_name or stack_name is required"⟩, st, false)
    else if sn ∈ st.stackNames then
      (⟨"success", some sn,
        "Stack " ++ sn ++ " deletion initiated. This will delete the ECS service and all associated resources (ALB, target groups, security groups)."⟩,
       ⟨st.stackNames.erase sn⟩, true)
    else
      (⟨"not_found", some sn, "Stack " ++ sn ++ " does not exist"⟩, st, false)

/-! ## EKS deployment deletion (src/agentcore-eks-runtime/agent.py, lines 560-669) -/

/-- The Kubernetes collaborator: names of existing objects in namespace
`default`. -/
structure K8sState where
  deployments : List String
  services : List String
  serviceAccounts : List String

structure EksDeleteResult where
  status : String
  app_name : String
  deleted_resources : List String
  message : String

/-- Function `delete_eks_deployment`: each delete call is issued unconditionally; a
404 `ApiException` is caught and recorded as a "(not found)" entry.  The
third component lists the delete calls issued against the API server. -/
def delete_eks_deployment (st : K8sState) (app_name : String)
    (delete_service delete_service_account : Bool) :
    EksDeleteResult × K8sState × List String :=
  let saName := app_name ++ "-sa"
  let depEntry :=
    if app_name ∈ st.deployments then "Deployment: " ++ app_name
    else "Deployment: " ++ app_name ++ " (not found)"
  let svcEntries :=
    if delete_service then
      [if app_name ∈ st.services then "Service: " ++ app_name
       else "Service: " ++ app_name ++ " (not found)"]
    else []
  let saEntries :=
    if delete_service_account then
      [if saName ∈ st.serviceAccounts then "ServiceAccount: " ++ saName
       else "ServiceAccount: " ++ saName ++ " (not found)"]
    else []
  let entries := depEntry :: (svcEntries ++ saEntries)
  let deleted := entries.filter (fun e => !strHasSub e "not found")
  let calls := ("deployment/" ++ app_name) ::
    ((if delete_service then ["service/" ++ app_name] else []) ++
     (if delete_service_account then ["serviceaccount/" ++ saName] else []))
  (⟨"success", app_name, entries,
    "Successfully deleted " ++ toString deleted.length ++ " resource(s)"⟩,
   ⟨st.deployments.erase app_name,
    if delete_service then st.services.erase app_name else st.services,
    if delete_service_account then st.serviceAccounts.erase saName
    else st.serviceAccounts⟩,
   calls)

/-! ## Status Reconciler (src/web-ui/app.py, `check_stack_status`, lines 359-410) -/

/-- One CloudFormation stack event as surfaced by `describe_stack_events`. -/
structure StackEvent where
  timestampIso : String
  logicalResourceId : String
  resourceType : String
  resourceStatus : String
  resourceStatusReason : String

/-- Descriptor held by the provider for one stack, as consumed by the reconciler. -/
structure StackDescriptor where
  stackStatus : String
  stackStatusReason : String
  outputs : List (String × String)
  events : List StackEvent

/-- One `describe_stacks` round trip: the stack, or a `ClientError` whose
string form is inspected for "does not exist". -/
inductive DescribeStacksOutcome where
  | found (d : StackDescriptor)
  | clientError (msg : String)

/-- The event dict built at app.py lines 383-389. -/
structure EventInfo where
  timestamp : String
  resource : String
  rtype : String
  status : String
  reason : String
deriving DecidableEq

def eventInfoOf (e : StackEvent) : EventInfo :=
  ⟨e.timestampIso, e.logicalResourceId, e.resourceType, e.resourceStatus,
   e.resourceStatusReason⟩

/-- The result dict of `check_stack_status`; optional fields model keys that
are only present on some paths. -/
structure StackStatusResult where
  status : String
  reason : Option String
  stack_name : String
  failed_events : Option (List EventInfo)
  recent_events : Option (List EventInfo)
  outputs : Option (List (String × String))
  message : Option String

/-- Completion test from app.py lines 377 and 399. -/
def isCompleteStatus (status : String) : Bool :=
  status == "CREATE_COMPLETE" || status == "UPDATE_COMPLETE"

/-- Function `check_stack_status`: describe the stack; for any non-complete status
fetch the last 20 events and collect those whose status contains "FAILED";
for a complete status fetch the declared outputs; map a "does not exist"
`ClientError` to `NOT_FOUND` and any other `ClientError` to `ERROR`. -/
def check_stack_status (provider : String → DescribeStacksOutcome)
    (stack_name region : String) : StackStatusResult :=
  match provider stack_name with
  | .clientError msg =>
    if strHasSub msg "does not exist" then
      ⟨"NOT_FOUND", none, stack_name, none, none, none, none⟩
    else
      ⟨"ERROR", none, stack_name, none, none, none, some msg⟩
  | .found d =>
    if isCompleteStatus d.stackStatus then
      ⟨d.stackStatus, some d.stackStatusReason, stack_name, none, none,
       some d.outputs, none⟩
    else
      let allEvents := (d.events.take 20).map eventInfoOf
      let failedEvents := allEvents.filter (fun e => strHasSub e.status "FAILED")
      ⟨d.stackStatus, some d.stackStatusReason, stack_name, some failedEvents,
       some allEvents, none, none⟩

/-- The failure/rollback classification the spec describes, as used on the
result of the reconciler at app.py line 1093
(membership of "FAILED" or of "ROLLBACK" in the status field). -/
def matchesFailureMarker (status : String) : Bool :=
  strHasSub status "FAILED" || strHasSub status "ROLLBACK"

/-! ## Express deploy handler
(src/infrastructure/rest-api-server/container-migration/lambda_function.py,
`handle_deploy_ecs_express_service`, lines 416-813) -/

/-- Outcome of the `ecs.create_express_gateway_service` call: the created
ARN of the created service, or a raised exception. -/
inductive ExpressApiOutcome where
  | ok (serviceArn : String)
  | raise (msg : String)

/-- The EC2 collaborator used by VPC/subnet auto-discovery. -/
structure Ec2View where
  defaultVpc : Option String
  anyVpc : Option String
  publicSubnets : String → List String
  allSubnets : String → List String

/-- Request fields after `request_data.get` with defaults; a missing
`service_name`/`image_uri`/`vpc_id` is the empty string and missing
`subnet_ids` is the empty list (both falsy, as in the checks of the source). -/
structure ExpressDeployRequest where
  service_name : String
  image_uri : String
  environment_vars : List (String × String)
  cpu : String
  memory : String
  port : Int
  region : String
  vpc_id : String
  subnet_ids : List String

/-- Logical resource ids and types of the fallback CloudFormation template
(lambda_function.py lines 546-692). -/
def fallbackTemplateResources : List (String × String) :=
  [("ECSCluster", "AWS::ECS::Cluster"),
   ("ALBSecurityGroup", "AWS::EC2::SecurityGroup"),
   ("ECSTaskSecurityGroup", "AWS::EC2::SecurityGroup"),
   ("ApplicationLoadBalancer", "AWS::ElasticLoadBalancingV2::LoadBalancer"),
   ("TargetGroup", "AWS::ElasticLoadBalancingV2::TargetGroup"),
   ("ALBListener", "AWS::ElasticLoadBalancingV2::Listener"),
   ("TaskDefinition", "AWS::ECS::TaskDefinition"),
   ("ECSService", "AWS::ECS::Service")]

/-- HTTP-shaped response of the handler, plus a record of the `create_stack`
call the fallback path issues (stack name and template resources). -/
structure LambdaDeployResponse where
  statusCode : Nat
  status : Option String
  deployment_status : Option String
  stack_name : Option String
  service_arn : Option String
  errorMsg : Option String
  stackSubmitted : Option (String × List (String × String))

/-- Function `handle_deploy_ecs_express_service`: validate, auto-discover VPC/subnets
when absent, try the Express Gateway API, and on any exception from it build
and submit the full ALB/target-group/security-group/task-definition/service
CloudFormation template, returning 200 with deployment status
"in_progress" without waiting (the code after the early return at lines
703-724 is unreachable).  `create_stack` itself is the Gateway collaborator
and is modelled as accepting the submission. -/
def handle_deploy_ecs_express_service (ec2 : Ec2View) (express : ExpressApiOutcome)
    (req : ExpressDeployRequest) : LambdaDeployResponse :=
  if req.service_name.isEmpty || req.image_uri.isEmpty then
    ⟨400, none, none, none, none, some "service_name and image_uri are required", none⟩
  else
    let vpcId :=
      if req.vpc_id.isEmpty then
        match ec2.defaultVpc with
        | some v => some v
        | none => ec2.anyVpc
      else some req.vpc_id
    match vpcId with
    | none => ⟨400, none, none, none, none, some "No VPC found in region", none⟩
    | some vpc =>
      let subnets :=
        if req.subnet_ids.isEmpty then
          let ps := ec2.publicSubnets vpc
          if ps.isEmpty then ec2.allSubnets vpc else ps
        else req.subnet_ids
      if subnets.isEmpty then
        ⟨400, none, none, none, none, some ("No subnets found in VPC " ++ vpc), none⟩
      else
        match express with
        | .ok arn =>
          ⟨200, some "success", none, none, some arn, none, none⟩
        | .raise _ =>
          let stackName := req.service_name ++ "-alb-stack"
          ⟨200, some "success", some "in_progress", some stackName, none, none,
           some (stackName, fallbackTemplateResources)⟩

/-! ## Express service template
(src/agentcore-agent-runtime/agent.py, `deploy_ecs_express_service`,
lines 36-120) -/

structure ScalingTargetCfg where
  minTaskCount : Int
  maxTaskCount : Int
  autoScalingMetric : String
  autoScalingTargetValue : Int
deriving DecidableEq, Repr

structure PrimaryContainerCfg where
  image : String
  containerPort : Int
  environment : Option (List (String × String))

structure ServicePropertiesCfg where
  serviceName : String
  cpu : String
  memory : String
  primaryContainer : PrimaryContainerCfg
  scalingTarget : Option ScalingTargetCfg

structure ExpressStackTemplate where
  stackName : String
  resourceType : String
  properties : ServicePropertiesCfg
  outputKeys : List String

/-- Function `deploy_ecs_express_service`: build the container config (the
`Environment` key is only added for a truthy dict), add a `ScalingTarget`
only when `desired_count > 1`, and submit a one-resource
`AWS::ECS::ExpressGatewayService` stack named `ecs-express-<service_name>`. -/
def deploy_ecs_express_service (service_name image_uri cpu memory : String)
    (port : Int) (environment_variables : Option (List (String × String)))
    (desired_count : Int) : ExpressStackTemplate :=
  let containerConfig : PrimaryContainerCfg :=
    ⟨image_uri, port,
     match environment_variables with
     | some kvs => if kvs.isEmpty then none else some kvs
     | none => none⟩
  let props : ServicePropertiesCfg :=
    ⟨service_name, cpu, memory, containerConfig,
     if desired_count > 1 then
       some ⟨desired_count, 50, "AVERAGE_CPU", 70⟩
     else none⟩
  ⟨"ecs-express-" ++ service_name, "AWS::ECS::ExpressGatewayService", props,
   ["ServiceArn", "Endpoint"]⟩

/-! ## Chat env-var enrichment (src/web-ui/app.py, lines 1001-1016 and
1236-1252) -/

/-- The CONFIG values the enrichment reads (app.py lines 24-40). -/
structure WebUiConfig where
  account_id : String
  dynamodb_table : String
  s3_bucket_pref : String
  cognito_user_pool_id : String
  cognito_client_id : String

/-- Python `d[k] = v` on an association-list dict: replace the first binding
or append. -/
def setKey : List (String × String) → String → String → List (String × String)
  | [], k, v => [(k, v)]
  | (k', v') :: rest, k, v =>
    if k' = k then (k, v) :: rest else (k', v') :: setKey rest k v

/-- Python `d.update(kvs)`. -/
def updateMany (m : List (String × String)) (kvs : List (String × String)) :
    List (String × String) :=
  kvs.foldl (fun acc kv => setKey acc kv.1 kv.2) m

/-- First-match lookup in the association-list dict. -/
def lookupEnv : List (String × String) → String → Option String
  | [], _ => none
  | (k, v) :: rest, key => if k = key then some v else lookupEnv rest key

/-- Blog/sample detection from app.py lines 1007 and 1242:
membership of "blog" or of "sample" in the lowercased app name. -/
def isBlogOrSample (app_name : String) : Bool :=
  strHasSub (lowerStr app_name) "blog" || strHasSub (lowerStr app_name) "sample"

/-- ECS chat enrichment (app.py lines 1006-1016): for blog/sample apps
overwrite the six keys with CONFIG-derived values; `app_port` is the
`str(app_port)` the code writes into `PORT`. -/
def ecs_chat_enrich_env (cfg : WebUiConfig) (app_name deploy_region app_port : String)
    (env_vars : List (String × String)) : List (String × String) :=
  if isBlogOrSample app_name then
    updateMany env_vars
      [("AWS_REGION", deploy_region),
       ("DYNAMODB_TABLE", cfg.dynamodb_table),
       ("S3_BUCKET", cfg.s3_bucket_pref ++ "-" ++ cfg.account_id ++ "-" ++ deploy_region),
       ("COGNITO_USER_POOL_ID", cfg.cognito_user_pool_id),
       ("COGNITO_CLIENT_ID", cfg.cognito_client_id),
       ("PORT", app_port)]
  else env_vars

/-- EKS chat enrichment (app.py lines 1241-1252): same six keys plus
`NODE_ENV`. -/
def eks_chat_enrich_env (cfg : WebUiConfig) (app_name region app_port : String)
    (env_vars : List (String × String)) : List (String × String) :=
  if isBlogOrSample app_name then
    updateMany env_vars
      [("AWS_REGION", region),
       ("DYNAMODB_TABLE", cfg.dynamodb_table),
       ("S3_BUCKET", cfg.s3_bucket_pref ++ "-" ++ cfg.account_id ++ "-" ++ region),
       ("COGNITO_USER_POOL_ID", cfg.cognito_user_pool_id),
       ("COGNITO_CLIENT_ID", cfg.cognito_client_id),
       ("PORT", app_port),
       ("NODE_ENV", "production")]
  else env_vars

/-! ## Concrete collaborator instances used by witnesses and counterexamples -/

/-- A json library view under which no text parses. -/
def demoLoadsNone : String → Option JValue := fun _ => none

/-- A json library view that parses exactly the key-missing object used by
the C2 counterexample. -/
def demoParsedLoads : String → Option JValue := fun s =>
  if s = "\x7b\"x\": 1\x7d" then some (.jobj [("x", .jnum 1)]) else none

/-- A json library view that parses exactly the deploy decision used by the
C3 witness. -/
def demoDeployLoads : String → Option JValue := fun s =>
  if s = "\x7b\"operation\": \"deploy\"\x7d" then
    some (.jobj [("operation", .jstr "deploy"),
                 ("arguments", .jobj [("app_name", .jstr "blog")]),
                 ("reasoning", .jstr "deploy request")])
  else none

/-- The shape of a real `json.JSONDecodeError` message. -/
def demoDecodeErr : String → String := fun _ =>
  "Expecting value: line 1 column 1 (char 0)"

/-- An oracle that is throttled on every attempt. -/
def demoThrottleOracle : Nat → BedrockOutcome := fun _ =>
  .raise "ThrottlingException: Rate exceeded"

/-- An oracle that fails with a non-throttling error on every attempt. -/
def demoAccessDeniedOracle : Nat → BedrockOutcome := fun _ =>
  .raise "AccessDeniedException: not authorized to invoke model"

/-- An oracle that answers with the key-missing JSON text. -/
def demoMissingKeysOracle : Nat → BedrockOutcome := fun _ =>
  .ok "\x7b\"x\": 1\x7d"

/-- An oracle that answers with a well-formed deploy decision. -/
def demoDeployOracle : Nat → BedrockOutcome := fun _ =>
  .ok "\x7b\"operation\": \"deploy\"\x7d"

/-- An oracle whose answer is not JSON at all. -/
def demoGarbageOracle : Nat → BedrockOutcome := fun _ =>
  .ok "I cannot determine the operation."

/-! ## Shared helper lemmas -/

theorem str_ne_empty_of_length {s : String} (h : s.length ≠ 0) : s ≠ "" := by
  intro he
  subst he
  simp at h

/-- Unrolling of the router when the first attempt succeeds. -/
theorem router_run_of_ok (loads : String → Option JValue) (decodeErr : String → String)
    (oracle : Nat → BedrockOutcome) (content : String) (j : JValue)
    (h0 : oracle 0 = .ok content) (hl : loads (extractJsonContent content) = some j) :
    llm_route_ecs_command loads decodeErr oracle = ⟨j, 1, []⟩ := by
  simp [llm_route_ecs_command, maxRetries, routeLoop, bedrockAttempt, h0, hl]

/-- Whenever every attempt fails (exception or unparseable text), the loop
returns the structured error decision with a non-empty reasoning string. -/
theorem routeLoop_error_of_allfail (loads : String → Option JValue)
    (decodeErr : String → String) (oracle : Nat → BedrockOutcome)
    (hfail : ∀ i, ∃ msg, bedrockAttempt loads decodeErr (oracle i) = .error msg) :
    ∀ fuel attempt,
      jget (routeLoop loads decodeErr oracle fuel attempt).decision "operation" =
        some (.jstr "error") ∧
      ∃ r, jget (routeLoop loads decodeErr oracle fuel attempt).decision "reasoning" =
        some (.jstr r) ∧ r ≠ "" := by
  intro fuel
  induction fuel with
  | zero =>
    intro attempt
    refine ⟨rfl, "Failed to route command: Bedrock service unavailable after retries", rfl, ?_⟩
    decide
  | succ n ih =>
    intro attempt
    obtain ⟨msg, hmsg⟩ := hfail attempt
    by_cases hc : (isThrottlingError msg && decide (attempt < maxRetries - 1)) = true
    · have hstep : routeLoop loads decodeErr oracle (n + 1) attempt =
        ⟨(routeLoop loads decodeErr oracle n (attempt + 1)).decision,
         (routeLoop loads decodeErr oracle n (attempt + 1)).calls + 1,
         baseDelay * 2 ^ attempt :: (routeLoop loads decodeErr oracle n (attempt + 1)).sleeps⟩ := by
        simp [routeLoop, hmsg, hc]
      rw [hstep]
      exact ih (attempt + 1)
    · have hstep : routeLoop loads decodeErr oracle (n + 1) attempt =
        ⟨errorDecisionEcs ("Failed to route command after 5 attempts: " ++ msg), 1, []⟩ := by
        simp [routeLoop, hmsg, hc]
      rw [hstep]
      refine ⟨rfl, "Failed to route command after 5 attempts: " ++ msg, rfl, ?_⟩
      apply str_ne_empty_of_length
      have h1 : 0 < ("Failed to route command after 5 attempts: " : String).length := by decide
      rw [String.length_append]
      omega

/-! ## Claim C1 -/

/-- Claim C1 (amended): when the oracle fails with a throttling-class error on
every attempt, the router makes exactly 5 Bedrock calls, sleeping 3s, 6s, 12s
and 24s between consecutive attempts (there is no fifth 48s delay: the loop
only sleeps when another attempt remains) and returns a decision with
operation `error`; on a non-throttling failure it returns operation `error`
immediately after a single call with no sleeps. -/
theorem c1_retry_policy :
    (∀ (loads : String → Option JValue) (decodeErr : String → String)
       (oracle : Nat → BedrockOutcome),
      (∀ i, i < 5 → ∃ m, oracle i = .raise m ∧ isThrottlingError m = true) →
      (llm_route_ecs_command loads decodeErr oracle).calls = 5 ∧
      (llm_route_ecs_command loads decodeErr oracle).sleeps = [3, 6, 12, 24] ∧
      jget (llm_route_ecs_command loads decodeErr oracle).decision "operation" =
        some (.jstr "error")) ∧
    (∀ (loads : String → Option JValue) (decodeErr : String → String)
       (oracle : Nat → BedrockOutcome) (m : String),
      oracle 0 = .raise m → isThrottlingError m = false →
      (llm_route_ecs_command loads decodeErr oracle).calls = 1 ∧
      (llm_route_ecs_command loads decodeErr oracle).sleeps = [] ∧
      jget (llm_route_ecs_command loads decodeErr oracle).decision "operation" =
        some (.jstr "error")) := by
  constructor
  · intro loads decodeErr oracle h
    obtain ⟨m0, e0, t0⟩ := h 0 (by norm_num)
    obtain ⟨m1, e1, t1⟩ := h 1 (by norm_num)
    obtain ⟨m2, e2, t2⟩ := h 2 (by norm_num)
    obtain ⟨m3, e3, t3⟩ := h 3 (by norm_num)
    obtain ⟨m4, e4, t4⟩ := h 4 (by norm_num)
    simp [llm_route_ecs_command, maxRetries, baseDelay, routeLoop, bedrockAttempt,
      e0, e1, e2, e3, e4, t0, t1, t2, t3, t4, errorDecisionEcs, jget, lookupStr]
  · intro loads decodeErr oracle m e0 t0
    simp [llm_route_ecs_command, maxRetries, routeLoop, bedrockAttempt,
      e0, t0, errorDecisionEcs, jget, lookupStr]

/-- Witness for C1: a concrete always-throttled oracle yields 5 calls, sleeps
3/6/12/24 and an error decision; a concrete access-denied oracle yields one
call, no sleeps and an error decision. -/
theorem c1_retry_policy_witness :
    ((llm_route_ecs_command demoLoadsNone demoDecodeErr demoThrottleOracle).calls = 5 ∧
     (llm_route_ecs_command demoLoadsNone demoDecodeErr demoThrottleOracle).sleeps =
       [3, 6, 12, 24] ∧
     jget (llm_route_ecs_command demoLoadsNone demoDecodeErr demoThrottleOracle).decision
       "operation" = some (.jstr "error")) ∧
    ((llm_route_ecs_command demoLoadsNone demoDecodeErr demoAccessDeniedOracle).calls = 1 ∧
     (llm_route_ecs_command demoLoadsNone demoDecodeErr demoAccessDeniedOracle).sleeps = [] ∧
     jget (llm_route_ecs_command demoLoadsNone demoDecodeErr demoAccessDeniedOracle).decision
       "operation" = some (.jstr "error")) :=
  ⟨c1_retry_policy.1 demoLoadsNone demoDecodeErr demoThrottleOracle
     (fun _ _ => ⟨"ThrottlingException: Rate exceeded", rfl, by decide⟩),
   c1_retry_policy.2 demoLoadsNone demoDecodeErr demoAccessDeniedOracle
     "AccessDeniedException: not authorized to invoke model" rfl (by decide)⟩

/-- Counterexample for C1 as stated: under 5 consecutive throttling failures
the router sleeps 3s, 6s, 12s and 24s only — the delay sequence is not the
claimed 3s, 6s, 12s, 24s, 48s (there are 4 sleeps between 5 attempts). -/
theorem c1_counterexample :
    (llm_route_ecs_command demoLoadsNone demoDecodeErr demoThrottleOracle).sleeps =
      [3, 6, 12, 24] ∧
    ¬ ((llm_route_ecs_command demoLoadsNone demoDecodeErr demoThrottleOracle).sleeps =
      [3, 6, 12, 24, 48]) := by
  constructor
  · rfl
  · intro h
    have h2 : ([3, 6, 12, 24] : List Nat) = [3, 6, 12, 24, 48] :=
      Eq.trans (Eq.symm (rfl :
        (llm_route_ecs_command demoLoadsNone demoDecodeErr demoThrottleOracle).sleeps =
          [3, 6, 12, 24])) h
    exact absurd h2 (by decide)

/-! ## Claim C2 -/

/-- Claim C2 (amended): for every oracle run whose attempts all fail (raised
exception or unparseable response text) the router returns a decision with
operation `error` and a non-empty reasoning string, and never raises; but a
response that parses to JSON *missing the required keys* is returned by the
router unchanged (no `error` rewriting happens in `llm_route_ecs_command`
itself) — the `ecs_chat` dispatcher then maps the key-less decision to an
error response. -/
theorem c2_malformed_oracle_output :
    (∀ (loads : String → Option JValue) (decodeErr : String → String)
       (oracle : Nat → BedrockOutcome),
      (∀ i, ∃ msg, bedrockAttempt loads decodeErr (oracle i) = .error msg) →
      jget (llm_route_ecs_command loads decodeErr oracle).decision "operation" =
        some (.jstr "error") ∧
      ∃ r, jget (llm_route_ecs_command loads decodeErr oracle).decision "reasoning" =
        some (.jstr r) ∧ r ≠ "") ∧
    (∀ (loads : String → Option JValue) (decodeErr : String → String)
       (oracle : Nat → BedrockOutcome) (content : String) (j : JValue),
      oracle 0 = .ok content → loads (extractJsonContent content) = some j →
      (llm_route_ecs_command loads decodeErr oracle).decision = j) ∧
    (∀ j : JValue, jget j "operation" = none → ecs_chat_operation j = "error") := by
  refine ⟨?_, ?_, ?_⟩
  · intro loads decodeErr oracle hfail
    exact routeLoop_error_of_allfail loads decodeErr oracle hfail maxRetries 0
  · intro loads decodeErr oracle content j h0 hl
    rw [router_run_of_ok loads decodeErr oracle content j h0 hl]
  · intro j hj
    cases j
    case jobj kvs =>
      simp [ecs_chat_operation, hj, jFalsy]
    all_goals simp [ecs_chat_operation]

/-- Witness for C2: a concrete non-JSON oracle answer yields the error
decision with non-empty reasoning; a concrete parsed key-less object is
returned verbatim; the dispatcher maps that object to `error`. -/
theorem c2_malformed_oracle_output_witness :
    (jget (llm_route_ecs_command demoLoadsNone demoDecodeErr demoGarbageOracle).decision
       "operation" = some (.jstr "error") ∧
     ∃ r, jget (llm_route_ecs_command demoLoadsNone demoDecodeErr demoGarbageOracle).decision
       "reasoning" = some (.jstr r) ∧ r ≠ "") ∧
    (llm_route_ecs_command demoParsedLoads demoDecodeErr demoMissingKeysOracle).decision =
      .jobj [("x", .jnum 1)] ∧
    ecs_chat_operation (.jobj [("x", .jnum 1)]) = "error" :=
  ⟨c2_malformed_oracle_output.1 demoLoadsNone demoDecodeErr demoGarbageOracle
     (fun _ => ⟨demoDecodeErr "I cannot determine the operation.", rfl⟩),
   c2_malformed_oracle_output.2.1 demoParsedLoads demoDecodeErr demoMissingKeysOracle
     "\x7b\"x\": 1\x7d" (.jobj [("x", .jnum 1)]) rfl rfl,
   c2_malformed_oracle_output.2.2 (.jobj [("x", .jnum 1)]) rfl⟩

/-- Counterexample for C2 as stated: when the oracle answer parses to a JSON
object missing the required keys, the decision returned by the router does NOT
have operation `error` — it is the parsed object itself, with no operation
key at all. -/
theorem c2_counterexample :
    jget (llm_route_ecs_command demoParsedLoads demoDecodeErr demoMissingKeysOracle).decision
      "operation" = none ∧
    ¬ (jget (llm_route_ecs_command demoParsedLoads demoDecodeErr demoMissingKeysOracle).decision
      "operation" = some (.jstr "error")) := by
  refine ⟨rfl, ?_⟩
  intro hc
  have h2 : (none : Option JValue) = some (.jstr "error") :=
    Eq.trans (Eq.symm (rfl :
      jget (llm_route_ecs_command demoParsedLoads demoDecodeErr demoMissingKeysOracle).decision
        "operation" = none)) hc
  exact Option.noConfusion h2

/-! ## Claim C3 -/

/-- The dispatcher only ever reaches one of the five enumerated branches. -/
theorem ecs_chat_operation_mem (routing : JValue) :
    ecs_chat_operation routing ∈ (["deploy", "list", "status", "delete", "error"] : List String) := by
  cases routing
  case jobj kvs =>
    simp only [ecs_chat_operation]
    split
    · simp
    · split
      · simp
      · split
        · simp
        · split
          · simp
          · split
            · simp
            · split
              · simp
              · simp
  all_goals simp [ecs_chat_operation]

/-- A recognized operation string is dispatched as itself. -/
theorem ecs_chat_operation_recognized (routing : JValue) (op : String)
    (hop : jget routing "operation" = some (.jstr op))
    (hmem : op ∈ (["deploy", "list", "delete", "status"] : List String)) :
    ecs_chat_operation routing = op := by
  cases routing <;> simp [jget] at hop
  case jobj kvs =>
  fin_cases hmem <;>
    simp [ecs_chat_operation, jget, hop, jFalsy, jEqStr] <;> decide

/-- Claim C3 (confirmed): the dispatched operation always lies in
\x7bdeploy, list, status, delete, error\x7d; a decision whose operation key
holds a recognized operation string is dispatched as exactly that operation
(no silent remapping), including end-to-end through the router when the
oracle returns well-formed JSON; anything unrecognized lands on `error`. -/
theorem c3_operation_enum :
    (∀ routing : JValue,
      ecs_chat_operation routing ∈ (["deploy", "list", "status", "delete", "error"] : List String)) ∧
    (∀ (routing : JValue) (op : String),
      jget routing "operation" = some (.jstr op) →
      op ∈ (["deploy", "list", "delete", "status"] : List String) →
      ecs_chat_operation routing = op) ∧
    (∀ (loads : String → Option JValue) (decodeErr : String → String)
       (oracle : Nat → BedrockOutcome) (content : String) (j : JValue) (op : String),
      oracle 0 = .ok content → loads (extractJsonContent content) = some j →
      jget j "operation" = some (.jstr op) →
      op ∈ (["deploy", "list", "delete", "status"] : List String) →
      ecs_chat_operation (llm_route_ecs_command loads decodeErr oracle).decision = op) := by
  refine ⟨ecs_chat_operation_mem, ecs_chat_operation_recognized, ?_⟩
  intro loads decodeErr oracle content j op h0 hl hop hmem
  rw [router_run_of_ok loads decodeErr oracle content j h0 hl]
  exact ecs_chat_operation_recognized j op hop hmem

/-- Witness for C3: a concrete deploy decision propagates end-to-end as
`deploy`, and a concrete unknown operation is dispatched to `error`. -/
theorem c3_operation_enum_witness :
    ecs_chat_operation (.jobj [("operation", .jstr "scale")]) ∈
      (["deploy", "list", "status", "delete", "error"] : List String) ∧
    ecs_chat_operation (.jobj [("operation", .jstr "scale")]) = "error" ∧
    ecs_chat_operation
      (llm_route_ecs_command demoDeployLoads demoDecodeErr demoDeployOracle).decision =
      "deploy" :=
  ⟨c3_operation_enum.1 (.jobj [("operation", .jstr "scale")]),
   rfl,
   c3_operation_enum.2.2 demoDeployLoads demoDecodeErr demoDeployOracle
     "\x7b\"operation\": \"deploy\"\x7d"
     (.jobj [("operation", .jstr "deploy"),
             ("arguments", .jobj [("app_name", .jstr "blog")]),
             ("reasoning", .jstr "deploy request")])
     "deploy" rfl rfl rfl (by decide)⟩

/-! ## Claim C4 -/

/-- A concrete fresh ECR view for the C4 witness and counterexample. -/
def demoEcrState : EcrState :=
  ⟨[], fun n => "123456789012.dkr.ecr.us-west-2.amazonaws.com/" ++ n,
   fun n => "arn:aws:ecr:us-west-2:123456789012:repository/" ++ n⟩

/-- Claim C4 (amended): calling `create_ecr_repository` twice with the same
name yields status `success` (not `created` — that string never occurs in the
code) on the first call and `exists` on the second; the second call is never
a failure and returns the URI of the existing repository. -/
theorem c4_registry_idempotent (st : EcrState) (name : String)
    (h : name ∉ st.repos) :
    (create_ecr_repository st name).1.status = "success" ∧
    (create_ecr_repository (create_ecr_repository st name).2 name).1.status = "exists" ∧
    (create_ecr_repository (create_ecr_repository st name).2 name).1.repository_uri =
      st.uriOf name := by
  simp [create_ecr_repository, h]

/-- Witness for C4 at a fresh registry and the name "blog-app". -/
theorem c4_registry_idempotent_witness :
    (create_ecr_repository demoEcrState "blog-app").1.status = "success" ∧
    (create_ecr_repository (create_ecr_repository demoEcrState "blog-app").2 "blog-app").1.status =
      "exists" ∧
    (create_ecr_repository (create_ecr_repository demoEcrState "blog-app").2 "blog-app").1.repository_uri =
      demoEcrState.uriOf "blog-app" :=
  c4_registry_idempotent demoEcrState "blog-app" (by simp [demoEcrState])

/-- Counterexample for C4 as stated: the status of the first call is `success`,
never the claimed `created`. -/
theorem c4_counterexample :
    (create_ecr_repository demoEcrState "blog-app").1.status = "success" ∧
    ¬ ((create_ecr_repository demoEcrState "blog-app").1.status = "created") := by
  refine ⟨rfl, ?_⟩
  intro hc
  have h2 : ("success" : String) = "created" :=
    Eq.trans (Eq.symm (rfl :
      (create_ecr_repository demoEcrState "blog-app").1.status = "success")) hc
  exact absurd h2 (by decide)

/-! ## Claim C5 -/

/-- Claim C5 (amended): deleting a nonexistent ECS stack returns `not_found`
and issues no `delete_stack` call; deleting a nonexistent EKS deployment,
however, *does* issue the Kubernetes delete calls — the 404 responses are
caught and normalized to a `success` result whose entries carry a
"(not found)" annotation, and no exception reaches the caller in either
case. -/
theorem c5_delete_idempotent :
    (∀ (st : CfnState) (sn : String), ¬ sn.isEmpty = true →
      ("ecs-express-" ++ sn) ∉ st.stackNames →
      (delete_ecs_service st (some sn) none).1.status = "not_found" ∧
      (delete_ecs_service st (some sn) none).2.2 = false) ∧
    (∀ (st : K8sState) (app : String) (ds dsa : Bool), app ∉ st.deployments →
      (delete_eks_deployment st app ds dsa).1.status = "success" ∧
      ("Deployment: " ++ app ++ " (not found)") ∈
        (delete_eks_deployment st app ds dsa).1.deleted_resources ∧
      ("deployment/" ++ app) ∈ (delete_eks_deployment st app ds dsa).2.2) := by
  constructor
  · intro st sn hne hmem
    have hne2 : ¬ ("ecs-express-" ++ sn).isEmpty = true := by
      rw [String.isEmpty_iff]
      apply str_ne_empty_of_length
      have h1 : 0 < ("ecs-express-" : String).length := by decide
      rw [String.length_append]
      omega
    simp [delete_ecs_service, optFalsy, hne, hne2, hmem]
  · intro st app ds dsa hmem
    simp [delete_eks_deployment, hmem]

/-- Witness for C5 at a region containing no stacks and no Kubernetes
objects. -/
theorem c5_delete_idempotent_witness :
    ((delete_ecs_service ⟨[]⟩ (some "checkout") none).1.status = "not_found" ∧
     (delete_ecs_service ⟨[]⟩ (some "checkout") none).2.2 = false) ∧
    ((delete_eks_deployment ⟨[], [], []⟩ "checkout" true true).1.status = "success" ∧
     ("Deployment: checkout (not found)") ∈
       (delete_eks_deployment ⟨[], [], []⟩ "checkout" true true).1.deleted_resources ∧
     ("deployment/checkout") ∈ (delete_eks_deployment ⟨[], [], []⟩ "checkout" true true).2.2) :=
  ⟨c5_delete_idempotent.1 ⟨[]⟩ "checkout" (by decide) (by simp),
   c5_delete_idempotent.2 ⟨[], [], []⟩ "checkout" true true (by simp)⟩

/-- Counterexample for C5 as stated: deleting the nonexistent EKS deployment
"checkout" returns status `success` (not `not_found`) and issues three delete
calls against the provider, contradicting both the `not_found` outcome and
the no-delete-call requirement. -/
theorem c5_counterexample :
    (delete_eks_deployment ⟨[], [], []⟩ "checkout" true true).1.status = "success" ∧
    ¬ ((delete_eks_deployment ⟨[], [], []⟩ "checkout" true true).1.status = "not_found") ∧
    (delete_eks_deployment ⟨[], [], []⟩ "checkout" true true).2.2 ≠ [] := by
  refine ⟨rfl, ?_, ?_⟩
  · intro hc
    have h2 : ("success" : String) = "not_found" :=
      Eq.trans (Eq.symm (rfl :
        (delete_eks_deployment ⟨[], [], []⟩ "checkout" true true).1.status = "success")) hc
    exact absurd h2 (by decide)
  · intro hc
    have h2 : (["deployment/checkout", "service/checkout", "serviceaccount/checkout-sa"] :
        List String) = [] :=
      Eq.trans (Eq.symm (rfl :
        (delete_eks_deployment ⟨[], [], []⟩ "checkout" true true).2.2 =
          ["deployment/checkout", "service/checkout", "serviceaccount/checkout-sa"])) hc
    exact List.noConfusion h2

/-! ## Claim C6 -/

/-- A concrete in-progress stack event for the C6 counterexample. -/
def demoEvent : StackEvent :=
  ⟨"2026-01-01T00:00:00", "ExpressService", "AWS::ECS::ExpressGatewayService",
   "CREATE_IN_PROGRESS", ""⟩

/-- A concrete CloudFormation view: one in-progress stack, everything else
missing. -/
def demoCfnProvider : String → DescribeStacksOutcome := fun n =>
  if n = "ecs-express-demo" then
    .found ⟨"CREATE_IN_PROGRESS", "", [], [demoEvent]⟩
  else
    .clientError ("Stack with id " ++ n ++ " does not exist")

/-- A concrete completed stack view for the C6 witness. -/
def demoDoneProvider : String → DescribeStacksOutcome := fun n =>
  if n = "ecs-express-blog" then
    .found ⟨"CREATE_COMPLETE", "",
      [("ServiceArn", "arn:aws:ecs:us-west-2:123456789012:service/blog"),
       ("Endpoint", "blog-123.elb.amazonaws.com")], []⟩
  else
    .clientError ("Stack with id " ++ n ++ " does not exist")

/-- Claim C6 (amended): on a completion status the declared outputs are
returned and no events are fetched; on *every* other status — in-progress as
well as failure/rollback — the most recent at most 20 events are fetched,
and exactly those whose status contains "FAILED" are surfaced as
`failed_events`; the status string of the provider is always reported verbatim;
an unknown stack identifier yields `NOT_FOUND`. -/
theorem c6_status_reconciler (provider : String → DescribeStacksOutcome)
    (stack_name region : String) :
    (∀ d : StackDescriptor, provider stack_name = .found d →
      (check_stack_status provider stack_name region).status = d.stackStatus ∧
      (isCompleteStatus d.stackStatus = true →
        (check_stack_status provider stack_name region).outputs = some d.outputs ∧
        (check_stack_status provider stack_name region).recent_events = none ∧
        (check_stack_status provider stack_name region).failed_events = none) ∧
      (isCompleteStatus d.stackStatus = false →
        (check_stack_status provider stack_name region).outputs = none ∧
        (check_stack_status provider stack_name region).recent_events =
          some ((d.events.take 20).map eventInfoOf) ∧
        (check_stack_status provider stack_name region).failed_events =
          some (((d.events.take 20).map eventInfoOf).filter
            (fun e => strHasSub e.status "FAILED")) ∧
        ((d.events.take 20).map eventInfoOf).length ≤ 20)) ∧
    (∀ msg : String, provider stack_name = .clientError msg →
      strHasSub msg "does not exist" = true →
      (check_stack_status provider stack_name region).status = "NOT_FOUND") := by
  constructor
  · intro d hd
    by_cases hc : isCompleteStatus d.stackStatus = true
    · refine ⟨?_, fun _ => ⟨?_, ?_, ?_⟩, fun hfalse => absurd hc (by simp [hfalse])⟩ <;>
        simp [check_stack_status, hd, hc]
    · have hc2 : isCompleteStatus d.stackStatus = false := by
        cases h : isCompleteStatus d.stackStatus
        · rfl
        · exact absurd h hc
      refine ⟨?_, fun htrue => absurd htrue hc, fun _ => ⟨?_, ?_, ?_, ?_⟩⟩ <;>
        simp [check_stack_status, hd, hc2]
  · intro msg hmsg hsub
    simp [check_stack_status, hmsg, hsub]

/-- Witness for C6: the concrete completed stack returns its outputs (with a
retrievable endpoint) and no events; an unknown identifier returns
`NOT_FOUND`. -/
theorem c6_status_reconciler_witness :
    ((check_stack_status demoDoneProvider "ecs-express-blog" "us-west-2").status =
       "CREATE_COMPLETE" ∧
     (check_stack_status demoDoneProvider "ecs-express-blog" "us-west-2").outputs =
       some [("ServiceArn", "arn:aws:ecs:us-west-2:123456789012:service/blog"),
             ("Endpoint", "blog-123.elb.amazonaws.com")] ∧
     (check_stack_status demoDoneProvider "ecs-express-blog" "us-west-2").recent_events =
       none) ∧
    (check_stack_status demoDoneProvider "ecs-express-missing" "us-west-2").status =
      "NOT_FOUND" :=
  ⟨⟨((c6_status_reconciler demoDoneProvider "ecs-express-blog" "us-west-2").1
       ⟨"CREATE_COMPLETE", "",
        [("ServiceArn", "arn:aws:ecs:us-west-2:123456789012:service/blog"),
         ("Endpoint", "blog-123.elb.amazonaws.com")], []⟩ rfl).1,
    (((c6_status_reconciler demoDoneProvider "ecs-express-blog" "us-west-2").1
       ⟨"CREATE_COMPLETE", "",
        [("ServiceArn", "arn:aws:ecs:us-west-2:123456789012:service/blog"),
         ("Endpoint", "blog-123.elb.amazonaws.com")], []⟩ rfl).2.1 (by decide)).1,
    (((c6_status_reconciler demoDoneProvider "ecs-express-blog" "us-west-2").1
       ⟨"CREATE_COMPLETE", "",
        [("ServiceArn", "arn:aws:ecs:us-west-2:123456789012:service/blog"),
         ("Endpoint", "blog-123.elb.amazonaws.com")], []⟩ rfl).2.1 (by decide)).2.1⟩,
   (c6_status_reconciler demoDoneProvider "ecs-express-missing" "us-west-2").2
     ("Stack with id ecs-express-missing does not exist") rfl (by decide)⟩

/-- Counterexample for C6 as stated: the status `CREATE_IN_PROGRESS` matches
no failure/rollback marker, yet the reconciler still fetches the stack
events — "events are fetched if and only if the status matches a
failure/rollback marker" is false. -/
theorem c6_counterexample :
    matchesFailureMarker "CREATE_IN_PROGRESS" = false ∧
    (check_stack_status demoCfnProvider "ecs-express-demo" "us-west-2").recent_events =
      some [⟨"2026-01-01T00:00:00", "ExpressService", "AWS::ECS::ExpressGatewayService",
             "CREATE_IN_PROGRESS", ""⟩] ∧
    (check_stack_status demoCfnProvider "ecs-express-demo" "us-west-2").recent_events ≠
      none := by
  refine ⟨by decide, rfl, ?_⟩
  intro hc
  have h2 : some [(⟨"2026-01-01T00:00:00", "ExpressService",
      "AWS::ECS::ExpressGatewayService", "CREATE_IN_PROGRESS", ""⟩ : EventInfo)] =
      (none : Option (List EventInfo)) :=
    Eq.trans (Eq.symm (rfl :
      (check_stack_status demoCfnProvider "ecs-express-demo" "us-west-2").recent_events =
        some [⟨"2026-01-01T00:00:00", "ExpressService", "AWS::ECS::ExpressGatewayService",
               "CREATE_IN_PROGRESS", ""⟩])) hc
  exact Option.noConfusion h2

/-! ## Claim C7 -/

/-- Claim C7 (confirmed): whenever the build/push step fails after the
registry step succeeded (created or already existing), the report contains
both the registry-step success line and the build failure diagnostic, and
the pipeline never reaches the submission step. -/
theorem c7_build_failure_short_circuit (app : String) (ecrOutcome : EcrStepOutcome)
    (build : BuildResult)
    (hecr : ecrOutcome = .created ∨ ecrOutcome = .alreadyExists)
    (hbuild : build.status ≠ "success") :
    (ecs_chat_deploy_pipeline app ecrOutcome build).submitted = false ∧
    ("❌ Build failed: " ++ build.message ++ "\n") ∈
      (ecs_chat_deploy_pipeline app ecrOutcome build).lines ∧
    (ecrOutcome = .created →
      ("✅ Created ECR repository: " ++ app ++ "\n") ∈
        (ecs_chat_deploy_pipeline app ecrOutcome build).lines) ∧
    (ecrOutcome = .alreadyExists →
      ("✅ ECR repository already exists: " ++ app ++ "\n") ∈
        (ecs_chat_deploy_pipeline app ecrOutcome build).lines) := by
  rcases hecr with h | h <;> subst h <;>
    simp [ecs_chat_deploy_pipeline, ecs_chat_deploy_pipeline.ecs_chat_deploy_after_registry,
      hbuild]

/-- Witness for C7 at a concrete failed docker build. -/
theorem c7_build_failure_short_circuit_witness :
    (ecs_chat_deploy_pipeline "blog" .created
      ⟨"error", "docker buildx failed", "", ""⟩).submitted = false ∧
    ("❌ Build failed: docker buildx failed\n") ∈
      (ecs_chat_deploy_pipeline "blog" .created
        ⟨"error", "docker buildx failed", "", ""⟩).lines ∧
    (EcrStepOutcome.created = .created →
      ("✅ Created ECR repository: blog\n") ∈
        (ecs_chat_deploy_pipeline "blog" .created
          ⟨"error", "docker buildx failed", "", ""⟩).lines) ∧
    (EcrStepOutcome.created = .alreadyExists →
      ("✅ ECR repository already exists: blog\n") ∈
        (ecs_chat_deploy_pipeline "blog" .created
          ⟨"error", "docker buildx failed", "", ""⟩).lines) :=
  c7_build_failure_short_circuit "blog" .created ⟨"error", "docker buildx failed", "", ""⟩
    (Or.inl rfl) (by decide)

/-! ## Claim C8 -/

/-- Claim C8 (confirmed): whenever the Express Gateway API call raises, the
handler builds the full CloudFormation fallback template (load balancer,
target group, both security groups, task definition, service), submits it as
`<service_name>-alb-stack`, and returns HTTP 200 with status `success` and
`deployment_status: in_progress` — a normal, not exceptional, return. -/
theorem c8_express_fallback (ec2 : Ec2View) (req : ExpressDeployRequest) (msg : String)
    (hsn : req.service_name.isEmpty = false) (him : req.image_uri.isEmpty = false)
    (hvpc : req.vpc_id.isEmpty = false) (hsub : req.subnet_ids.isEmpty = false) :
    (handle_deploy_ecs_express_service ec2 (.raise msg) req).statusCode = 200 ∧
    (handle_deploy_ecs_express_service ec2 (.raise msg) req).status = some "success" ∧
    (handle_deploy_ecs_express_service ec2 (.raise msg) req).deployment_status =
      some "in_progress" ∧
    (handle_deploy_ecs_express_service ec2 (.raise msg) req).stackSubmitted =
      some (req.service_name ++ "-alb-stack", fallbackTemplateResources) ∧
    ("ApplicationLoadBalancer", "AWS::ElasticLoadBalancingV2::LoadBalancer") ∈
      fallbackTemplateResources ∧
    ("TargetGroup", "AWS::ElasticLoadBalancingV2::TargetGroup") ∈ fallbackTemplateResources ∧
    ("ALBSecurityGroup", "AWS::EC2::SecurityGroup") ∈ fallbackTemplateResources ∧
    ("ECSTaskSecurityGroup", "AWS::EC2::SecurityGroup") ∈ fallbackTemplateResources ∧
    ("TaskDefinition", "AWS::ECS::TaskDefinition") ∈ fallbackTemplateResources ∧
    ("ECSService", "AWS::ECS::Service") ∈ fallbackTemplateResources := by
  refine ⟨?_, ?_, ?_, ?_, by decide, by decide, by decide, by decide, by decide, by decide⟩ <;>
    simp [handle_deploy_ecs_express_service, hsn, him, hvpc, hsub]

/-- A concrete deploy request for the C8 witness. -/
def demoExpressReq : ExpressDeployRequest :=
  ⟨"blog", "123456789012.dkr.ecr.us-west-2.amazonaws.com/blog:latest", [],
   "256", "512", 3000, "us-west-2", "vpc-0abc", ["subnet-1", "subnet-2"]⟩

/-- Witness for C8 at a concrete request and a concrete Express API
exception. -/
theorem c8_express_fallback_witness :
    (handle_deploy_ecs_express_service ⟨none, none, fun _ => [], fun _ => []⟩
       (.raise "Unknown operation: CreateExpressGatewayService") demoExpressReq).statusCode =
      200 ∧
    (handle_deploy_ecs_express_service ⟨none, none, fun _ => [], fun _ => []⟩
       (.raise "Unknown operation: CreateExpressGatewayService") demoExpressReq).status =
      some "success" ∧
    (handle_deploy_ecs_express_service ⟨none, none, fun _ => [], fun _ => []⟩
       (.raise "Unknown operation: CreateExpressGatewayService") demoExpressReq).deployment_status =
      some "in_progress" ∧
    (handle_deploy_ecs_express_service ⟨none, none, fun _ => [], fun _ => []⟩
       (.raise "Unknown operation: CreateExpressGatewayService") demoExpressReq).stackSubmitted =
      some (demoExpressReq.service_name ++ "-alb-stack", fallbackTemplateResources) ∧
    ("ApplicationLoadBalancer", "AWS::ElasticLoadBalancingV2::LoadBalancer") ∈
      fallbackTemplateResources ∧
    ("TargetGroup", "AWS::ElasticLoadBalancingV2::TargetGroup") ∈ fallbackTemplateResources ∧
    ("ALBSecurityGroup", "AWS::EC2::SecurityGroup") ∈ fallbackTemplateResources ∧
    ("ECSTaskSecurityGroup", "AWS::EC2::SecurityGroup") ∈ fallbackTemplateResources ∧
    ("TaskDefinition", "AWS::ECS::TaskDefinition") ∈ fallbackTemplateResources ∧
    ("ECSService", "AWS::ECS::Service") ∈ fallbackTemplateResources :=
  c8_express_fallback ⟨none, none, fun _ => [], fun _ => []⟩ demoExpressReq
    "Unknown operation: CreateExpressGatewayService" rfl rfl rfl rfl

/-! ## Claim C9 -/

/-- Claim C9 (confirmed): the service properties of the generated template carry a
`ScalingTarget` (MinTaskCount = desired_count, MaxTaskCount = 50, metric
AVERAGE_CPU, target value 70) exactly when `desired_count > 1`, and no
scaling configuration otherwise. -/
theorem c9_scaling_target (service_name image_uri cpu memory : String) (port : Int)
    (env : Option (List (String × String))) (desired_count : Int) :
    (deploy_ecs_express_service service_name image_uri cpu memory port env
        desired_count).properties.scalingTarget =
      if desired_count > 1 then some ⟨desired_count, 50, "AVERAGE_CPU", 70⟩ else none := by
  rfl

/-! ## Claim C10 -/

theorem lookupEnv_setKey_same (m : List (String × String)) (k v : String) :
    lookupEnv (setKey m k v) k = some v := by
  induction m with
  | nil => simp [setKey, lookupEnv]
  | cons hd tl ih =>
    by_cases h : hd.1 = k
    · simp [setKey, lookupEnv, h]
    · simp [setKey, lookupEnv, h, ih]

theorem lookupEnv_setKey_other (m : List (String × String)) (k v k' : String)
    (h : k ≠ k') : lookupEnv (setKey m k v) k' = lookupEnv m k' := by
  induction m with
  | nil => simp [setKey, lookupEnv, h]
  | cons hd tl ih =>
    by_cases h2 : hd.1 = k
    · simp [setKey, lookupEnv, h2, h]
    · simp [setKey, lookupEnv, h2, ih]

/-- Claim C10 (confirmed): for blog/sample app names (case-insensitive
substring match) both chat endpoints overwrite the six environment keys with
the configuration-derived values, whatever env_vars the oracle supplied;
the EKS variant additionally forces NODE_ENV. -/
theorem c10_env_enrichment (cfg : WebUiConfig) (app_name region app_port : String)
    (env_vars : List (String × String)) (h : isBlogOrSample app_name = true) :
    (lookupEnv (ecs_chat_enrich_env cfg app_name region app_port env_vars) "AWS_REGION" =
       some region ∧
     lookupEnv (ecs_chat_enrich_env cfg app_name region app_port env_vars) "DYNAMODB_TABLE" =
       some cfg.dynamodb_table ∧
     lookupEnv (ecs_chat_enrich_env cfg app_name region app_port env_vars) "S3_BUCKET" =
       some (cfg.s3_bucket_pref ++ "-" ++ cfg.account_id ++ "-" ++ region) ∧
     lookupEnv (ecs_chat_enrich_env cfg app_name region app_port env_vars)
       "COGNITO_USER_POOL_ID" = some cfg.cognito_user_pool_id ∧
     lookupEnv (ecs_chat_enrich_env cfg app_name region app_port env_vars)
       "COGNITO_CLIENT_ID" = some cfg.cognito_client_id ∧
     lookupEnv (ecs_chat_enrich_env cfg app_name region app_port env_vars) "PORT" =
       some app_port) ∧
    (lookupEnv (eks_chat_enrich_env cfg app_name region app_port env_vars) "AWS_REGION" =
       some region ∧
     lookupEnv (eks_chat_enrich_env cfg app_name region app_port env_vars) "DYNAMODB_TABLE" =
       some cfg.dynamodb_table ∧
     lookupEnv (eks_chat_enrich_env cfg app_name region app_port env_vars) "S3_BUCKET" =
       some (cfg.s3_bucket_pref ++ "-" ++ cfg.account_id ++ "-" ++ region) ∧
     lookupEnv (eks_chat_enrich_env cfg app_name region app_port env_vars)
       "COGNITO_USER_POOL_ID" = some cfg.cognito_user_pool_id ∧
     lookupEnv (eks_chat_enrich_env cfg app_name region app_port env_vars)
       "COGNITO_CLIENT_ID" = some cfg.cognito_client_id ∧
     lookupEnv (eks_chat_enrich_env cfg app_name region app_port env_vars) "PORT" =
       some app_port ∧
     lookupEnv (eks_chat_enrich_env cfg app_name region app_port env_vars) "NODE_ENV" =
       some "production") := by
  simp only [ecs_chat_enrich_env, eks_chat_enrich_env, h, if_true, updateMany, List.foldl]
  refine ⟨⟨?_, ?_, ?_, ?_, ?_, ?_⟩, ?_, ?_, ?_, ?_, ?_, ?_, ?_⟩ <;>
    simp [lookupEnv_setKey_same, lookupEnv_setKey_other]

/-- Witness for C10 at a concrete blog app and oracle-supplied values that
get overwritten. -/
theorem c10_env_enrichment_witness :
    (lookupEnv (ecs_chat_enrich_env ⟨"123456789012", "blog-posts", "blog-images-private",
        "us-west-2_POOL", "CLIENTID"⟩ "Blog-App" "us-west-2" "3000"
        [("DYNAMODB_TABLE", "oracle-table"), ("PORT", "9999")]) "AWS_REGION" =
       some "us-west-2" ∧
     lookupEnv (ecs_chat_enrich_env ⟨"123456789012", "blog-posts", "blog-images-private",
        "us-west-2_POOL", "CLIENTID"⟩ "Blog-App" "us-west-2" "3000"
        [("DYNAMODB_TABLE", "oracle-table"), ("PORT", "9999")]) "DYNAMODB_TABLE" =
       some "blog-posts" ∧
     lookupEnv (ecs_chat_enrich_env ⟨"123456789012", "blog-posts", "blog-images-private",
        "us-west-2_POOL", "CLIENTID"⟩ "Blog-App" "us-west-2" "3000"
        [("DYNAMODB_TABLE", "oracle-table"), ("PORT", "9999")]) "S3_BUCKET" =
       some ("blog-images-private" ++ "-" ++ "123456789012" ++ "-" ++ "us-west-2") ∧
     lookupEnv (ecs_chat_enrich_env ⟨"123456789012", "blog-posts", "blog-images-private",
        "us-west-2_POOL", "CLIENTID"⟩ "Blog-App" "us-west-2" "3000"
        [("DYNAMODB_TABLE", "oracle-table"), ("PORT", "9999")]) "COGNITO_USER_POOL_ID" =
       some "us-west-2_POOL" ∧
     lookupEnv (ecs_chat_enrich_env ⟨"123456789012", "blog-posts", "blog-images-private",
        "us-west-2_POOL", "CLIENTID"⟩ "Blog-App" "us-west-2" "3000"
        [("DYNAMODB_TABLE", "oracle-table"), ("PORT", "9999")]) "COGNITO_CLIENT_ID" =
       some "CLIENTID" ∧
     lookupEnv (ecs_chat_enrich_env ⟨"123456789012", "blog-posts", "blog-images-private",
        "us-west-2_POOL", "CLIENTID"⟩ "Blog-App" "us-west-2" "3000"
        [("DYNAMODB_TABLE", "oracle-table"), ("PORT", "9999")]) "PORT" =
       some "3000") ∧
    (lookupEnv (eks_chat_enrich_env ⟨"123456789012", "blog-posts", "blog-images-private",
        "us-west-2_POOL", "CLIENTID"⟩ "Blog-App" "us-west-2" "3000"
        [("DYNAMODB_TABLE", "oracle-table"), ("PORT", "9999")]) "AWS_REGION" =
       some "us-west-2" ∧
     lookupEnv (eks_chat_enrich_env ⟨"123456789012", "blog-posts", "blog-images-private",
        "us-west-2_POOL", "CLIENTID"⟩ "Blog-App" "us-west-2" "3000"
        [("DYNAMODB_TABLE", "oracle-table"), ("PORT", "9999")]) "DYNAMODB_TABLE" =
       some "blog-posts" ∧
     lookupEnv (eks_chat_enrich_env ⟨"123456789012", "blog-posts", "blog-images-private",
        "us-west-2_POOL", "CLIENTID"⟩ "Blog-App" "us-west-2" "3000"
        [("DYNAMODB_TABLE", "oracle-table"), ("PORT", "9999")]) "S3_BUCKET" =
       some ("blog-images-private" ++ "-" ++ "123456789012" ++ "-" ++ "us-west-2") ∧
     lookupEnv (eks_chat_enrich_env ⟨"123456789012", "blog-posts", "blog-images-private",
        "us-west-2_POOL", "CLIENTID"⟩ "Blog-App" "us-west-2" "3000"
        [("DYNAMODB_TABLE", "oracle-table"), ("PORT", "9999")]) "COGNITO_USER_POOL_ID" =
       some "us-west-2_POOL" ∧
     lookupEnv (eks_chat_enrich_env ⟨"123456789012", "blog-posts", "blog-images-private",
        "us-west-2_POOL", "CLIENTID"⟩ "Blog-App" "us-west-2" "3000"
        [("DYNAMODB_TABLE", "oracle-table"), ("PORT", "9999")]) "COGNITO_CLIENT_ID" =
       some "CLIENTID" ∧
     lookupEnv (eks_chat_enrich_env ⟨"123456789012", "blog-posts", "blog-images-private",
        "us-west-2_POOL", "CLIENTID"⟩ "Blog-App" "us-west-2" "3000"
        [("DYNAMODB_TABLE", "oracle-table"), ("PORT", "9999")]) "PORT" =
       some "3000" ∧
     lookupEnv (eks_chat_enrich_env ⟨"123456789012", "blog-posts", "blog-images-private",
        "us-west-2_POOL", "CLIENTID"⟩ "Blog-App" "us-west-2" "3000"
        [("DYNAMODB_TABLE", "oracle-table"), ("PORT", "9999")]) "NODE_ENV" =
       some "production") :=
  c10_env_enrichment ⟨"123456789012", "blog-posts", "blog-images-private",
    "us-west-2_POOL", "CLIENTID"⟩ "Blog-App" "us-west-2" "3000"
    [("DYNAMODB_TABLE", "oracle-table"), ("PORT", "9999")] (by decide)

end Ec2Migration
